import Mathlib

/-!
Verification of the DTN AI server dispatch layer (`src/node/dtn-ai/server.py`)
against its specification.

The embedding models `DTNAIServer.handle_request`: JSON values, the Python
semantics of the operations the handler performs on them (`in` membership,
`dict.get`, subscripting), the exception flow of the nested `try`/`except`
blocks, and the processor registry.  Handlers are opaque functions returning
either a `(result, resultType)` pair or a raised exception, matching the
`execute_call` interface consumed by the server.
-/

namespace DTNAI

/-- A JSON value, as produced by `request.json()` (Python objects from
`json.loads`): null, booleans, numbers, strings, arrays, objects. -/
inductive PyValue where
  | null : PyValue
  | bool (b : Bool) : PyValue
  | num (n : Int) : PyValue
  | str (s : String) : PyValue
  | arr (xs : List PyValue) : PyValue
  | obj (fields : List (String × PyValue)) : PyValue

/-- Python exception classes relevant to `handle_request`.
`processorGptO3ApiError` is the class `server.py` imports as
`ProcessorApiError` (from `processor_gpt_o3`); `processorGeminiApiError` is
the distinct `ApiError` class defined in `processor_gemini.py`, which is not
an instance of `ProcessorApiError`. -/
inductive ExnClass where
  | processorGptO3ApiError : ExnClass
  | processorGeminiApiError : ExnClass
  | typeError : ExnClass
  | attributeError : ExnClass
  | keyError : ExnClass
  | valueError : ExnClass
  | otherExn (name : String) : ExnClass
deriving DecidableEq

/-- A raised Python exception: its class, its `str(e)` message (for the
`ApiError` classes this equals the `.message` attribute, since their
constructor calls `super().__init__(self.message)`), and the optional
`error_code` carried by the `ApiError` classes. -/
structure PyExn where
  cls : ExnClass
  message : String
  errorCode : Option String := none

/-- Python `type(v).__name__` for the JSON value kinds, used in `TypeError`
messages. -/
def pyTypeName : PyValue → String
  | .null => "NoneType"
  | .bool _ => "bool"
  | .num _ => "int"
  | .str _ => "str"
  | .arr _ => "list"
  | .obj _ => "dict"

/-- Python equality test of a value against a string (used by `in` on a
list): only a `str` can equal a `str`. -/
def pyEqStr (v : PyValue) (s : String) : Bool :=
  match v with
  | .str t => t == s
  | _ => false

/-- Lookup in an association list with Python-`dict` semantics: when a key
occurs more than once the LAST binding wins, matching both `json.loads`
(later duplicate keys overwrite) and registry construction (last `register`
wins). -/
def lookupLast {α : Type} : List (String × α) → String → Option α
  | [], _ => none
  | kv :: rest, key =>
    match lookupLast rest key with
    | some v => some v
    | none => if kv.1 == key then some kv.2 else none

/-- Boolean substring test on character lists: `needle` occurs contiguously
inside `hay` (Python `needle in hay` for strings). -/
def isInfixOfB (needle : List Char) : List Char → Bool
  | [] => needle.isPrefixOf []
  | c :: rest => needle.isPrefixOf (c :: rest) || isInfixOfB needle rest

/-- Python `field in v` for a string `field`: key membership for a dict,
element membership for a list, substring test for a string; raises
`TypeError` for values that are not containers (numbers, booleans, null). -/
def pyContains (v : PyValue) (field : String) : Except PyExn Bool :=
  match v with
  | .obj fields => .ok (fields.any (fun kv => kv.1 == field))
  | .arr xs => .ok (xs.any (fun x => pyEqStr x field))
  | .str s => .ok (isInfixOfB field.data s.data)
  | w => .error { cls := .typeError,
                  message := "argument of type " ++ pyTypeName w ++ " is not iterable" }

/-- Python `v.get(key, default)`: defined only on dicts; any other value
raises `AttributeError`. -/
def pyGet (v : PyValue) (key : String) (default : PyValue) : Except PyExn PyValue :=
  match v with
  | .obj fields => .ok ((lookupLast fields key).getD default)
  | w => .error { cls := .attributeError,
                  message := pyTypeName w ++ " object has no attribute get" }

/-- Python `v[key]` for a string `key`: dict lookup (raising `KeyError` when
absent); lists and strings demand integer indices, so a string subscript
raises `TypeError`; all other values are not subscriptable. -/
def pySubscript (v : PyValue) (key : String) : Except PyExn PyValue :=
  match v with
  | .obj fields =>
    match lookupLast fields key with
    | some x => .ok x
    | none => .error { cls := .keyError, message := key }
  | .arr _ => .error { cls := .typeError,
                       message := "list indices must be integers or slices, not str" }
  | .str _ => .error { cls := .typeError, message := "string indices must be integers" }
  | w => .error { cls := .typeError,
                  message := pyTypeName w ++ " object is not subscriptable" }

/-- Python `str(v)` for the values that can reach the f-string in the
unsupported-model message.  Lists and dicts never reach it: the preceding
`model_name not in self.processors` membership test raises `TypeError` on
unhashable values first, so those two cases are unreachable in
`handle_request`. -/
def pyStrScalar : PyValue → String
  | .null => "None"
  | .bool true => "True"
  | .bool false => "False"
  | .num n => toString n
  | .str s => s
  | .arr _ => ""
  | .obj _ => ""

/-- Outcome of a processor's `execute_call`: either a `(result, resultType)`
pair or a raised exception. -/
inductive HandlerOutcome where
  | ok (result : PyValue) (resultType : String) : HandlerOutcome
  | raise (e : PyExn) : HandlerOutcome

/-- A processor module's `execute_call(model, parameters, types)`.  The server
passes the extracted JSON values through unvalidated, so all three arguments
are arbitrary `PyValue`s. -/
abbrev Handler : Type := PyValue → PyValue → PyValue → HandlerOutcome

/-- `self.processors`: the mapping from model name to processor module built
by `load_processors`; a Python dict, so `lookupLast` gives its lookup. -/
abbrev Registry : Type := List (String × Handler)

/-- `model_name not in self.processors` / `self.processors[model_name]`:
membership and lookup in one step.  Unhashable values (lists, dicts) raise
`TypeError`; any other non-string value is simply absent (Python `dict`
membership never equates numbers or booleans with string keys). -/
def registryResolve (reg : Registry) (m : PyValue) : Except PyExn (Option Handler) :=
  match m with
  | .arr _ => .error { cls := .typeError, message := "unhashable type: list" }
  | .obj _ => .error { cls := .typeError, message := "unhashable type: dict" }
  | .str s => .ok (lookupLast reg s)
  | _ => .ok none

/-- The response envelope of `web.json_response` together with the HTTP
status: the four body fields `requestId`, `data`, `datatype`, `error` are
always all present (every `web.json_response` call in `handle_request`
passes exactly those four keys). -/
structure Response where
  status : Nat
  requestId : PyValue
  data : PyValue
  datatype : String
  error : String

/-- The 400 response for a missing required top-level field
(lines 80 to 85 of server.py). -/
def missingFieldResp (rid : PyValue) (field : String) : Response :=
  { status := 400, requestId := rid, data := .str "", datatype := "",
    error := "Missing required field: " ++ field }

/-- The 400 response for a `call` lacking `parameters` or `types`
(lines 93 to 98). -/
def invalidCallResp (rid : PyValue) : Response :=
  { status := 400, requestId := rid, data := .str "", datatype := "",
    error := "Call must contain parameters and types" }

/-- The 400 response for an unregistered model (lines 107 to 112). -/
def unsupportedModelResp (rid : PyValue) (modelName : PyValue) : Response :=
  { status := 400, requestId := rid, data := .str "", datatype := "",
    error := "Model " ++ pyStrScalar modelName ++ " not supported" }

/-- The 200 success response (lines 124 to 129). -/
def successResp (rid : PyValue) (result : PyValue) (resultType : String) : Response :=
  { status := 200, requestId := rid, data := result, datatype := resultType,
    error := "" }

/-- The 400 response of the `except ProcessorApiError` clause
(lines 131 to 138): the exception's `.message` verbatim. -/
def apiErrorResp (rid : PyValue) (e : PyExn) : Response :=
  { status := 400, requestId := rid, data := .str "", datatype := "",
    error := e.message }

/-- The 500 response of the inner `except Exception` clause
(lines 140 to 147). -/
def processingErrorResp (rid : PyValue) (e : PyExn) : Response :=
  { status := 500, requestId := rid, data := .str "", datatype := "",
    error := "Processing error: " ++ e.message }

/-- The 400 response of the `except json.JSONDecodeError` clause
(lines 149 to 155). -/
def invalidJsonResp : Response :=
  { status := 400, requestId := .str "unknown", data := .str "", datatype := "",
    error := "Invalid JSON in request body" }

/-- The 500 response of the outermost `except Exception` clause
(lines 156 to 163). -/
def serverErrorResp (e : PyExn) : Response :=
  { status := 500, requestId := .str "unknown", data := .str "", datatype := "",
    error := "Server error: " ++ e.message }

/-- The validation loop of lines 77 to 85:
`for field in required_fields: if field not in body: return 400 ...`.
Returns `some resp` for the first missing field, `none` when all fields are
present, or propagates the exception a membership test or `body.get`
raises. -/
def checkRequiredLoop (body : PyValue) : List String → Except PyExn (Option Response)
  | [] => .ok none
  | f :: rest =>
    match pyContains body f with
    | .error e => .error e
    | .ok true => checkRequiredLoop body rest
    | .ok false =>
      match pyGet body "requestId" (.str "unknown") with
      | .error e => .error e
      | .ok rid => .ok (some (missingFieldResp rid f))

/-- `required_fields = ['requestId', 'model', 'call']` (line 77). -/
def requiredFields : List String := ["requestId", "model", "call"]

/-- The call-structure check of lines 92 to 98:
`if 'parameters' not in call_data or 'types' not in call_data`, with
Python's left-to-right short-circuit evaluation. -/
def checkCall (requestId : PyValue) (callData : PyValue) : Except PyExn (Option Response) :=
  match pyContains callData "parameters" with
  | .error e => .error e
  | .ok false => .ok (some (invalidCallResp requestId))
  | .ok true =>
    match pyContains callData "types" with
    | .error e => .error e
    | .ok false => .ok (some (invalidCallResp requestId))
    | .ok true => .ok none

/-- The dispatch of lines 105 to 147: registry check, processor invocation,
and the inner `except ProcessorApiError` / `except Exception` clauses.  The
boolean records whether the processor was invoked. -/
def dispatch (reg : Registry) (requestId modelName parameters types : PyValue) :
    Except PyExn (Response × Bool) :=
  match registryResolve reg modelName with
  | .error e => .error e
  | .ok none => .ok (unsupportedModelResp requestId modelName, false)
  | .ok (some processor) =>
    match processor modelName parameters types with
    | .ok result resultType => .ok (successResp requestId result resultType, true)
    | .raise e =>
      if e.cls = ExnClass.processorGptO3ApiError then
        .ok (apiErrorResp requestId e, true)
      else
        .ok (processingErrorResp requestId e, true)

/-- The body of the outer `try` of `handle_request` after the JSON parse
(lines 76 to 147), on the parsed body.  `.error e` means an uncaught
exception reaching the outermost `except Exception`; `.ok (resp, invoked)`
is the returned response together with whether a processor was invoked. -/
def handleCore (reg : Registry) (body : PyValue) : Except PyExn (Response × Bool) :=
  match checkRequiredLoop body requiredFields with
  | .error e => .error e
  | .ok (some resp) => .ok (resp, false)
  | .ok none =>
    match pySubscript body "requestId" with
    | .error e => .error e
    | .ok requestId =>
      match pySubscript body "model" with
      | .error e => .error e
      | .ok modelName =>
        match pySubscript body "call" with
        | .error e => .error e
        | .ok callData =>
          match checkCall requestId callData with
          | .error e => .error e
          | .ok (some resp) => .ok (resp, false)
          | .ok none =>
            match pySubscript callData "parameters" with
            | .error e => .error e
            | .ok parameters =>
              match pySubscript callData "types" with
              | .error e => .error e
              | .ok types => dispatch reg requestId modelName parameters types

/-- The request body as seen by `await request.json()`: either it raises
`json.JSONDecodeError` (body not valid JSON) or it yields a JSON value. -/
inductive RequestBody where
  | invalidJson : RequestBody
  | json (v : PyValue) : RequestBody

/-- `DTNAIServer.handle_request` (lines 70 to 163): the full
request-to-response function, including the two outermost `except`
clauses. -/
def handle_request (reg : Registry) (rb : RequestBody) : Response :=
  match rb with
  | .invalidJson => invalidJsonResp
  | .json body =>
    match handleCore reg body with
    | .ok (resp, _) => resp
    | .error e => serverErrorResp e

/-- Whether a processor's `execute_call` was invoked while serving the
request (never true when the body fails validation or the exception flow
bypasses the dispatch). -/
def handlerInvoked (reg : Registry) (rb : RequestBody) : Bool :=
  match rb with
  | .invalidJson => false
  | .json body =>
    match handleCore reg body with
    | .ok (_, invoked) => invoked
    | .error _ => false

/-! ### Helper lemmas about the embedding -/

theorem lookupLast_isSome {α : Type} (l : List (String × α)) (k : String) :
    (lookupLast l k).isSome = l.any (fun kv => kv.1 == k) := by
  induction l with
  | nil => rfl
  | cons kv rest ih =>
    rw [List.any_cons]
    show (match lookupLast rest k with
          | some v => some v
          | none => if kv.1 == k then some kv.2 else none).isSome = _
    cases hr : lookupLast rest k with
    | some w =>
      rw [hr] at ih
      simp only [Option.isSome_some] at ih ⊢
      rw [← ih, Bool.or_true]
    | none =>
      rw [hr] at ih
      simp only [Option.isSome_none] at ih ⊢
      rw [← ih, Bool.or_false]
      cases hk : kv.1 == k <;> simp [hk]

theorem any_of_lookupLast {α : Type} {l : List (String × α)} {k : String} {v : α}
    (h : lookupLast l k = some v) : l.any (fun kv => kv.1 == k) = true := by
  rw [← lookupLast_isSome, h]
  rfl

theorem any_false_of_lookupLast_none {α : Type} {l : List (String × α)} {k : String}
    (h : lookupLast l k = none) : l.any (fun kv => kv.1 == k) = false := by
  rw [← lookupLast_isSome, h]
  rfl

theorem lookupLast_mem {α : Type} {l : List (String × α)} {k : String} {v : α}
    (h : lookupLast l k = some v) : (k, v) ∈ l := by
  induction l with
  | nil => simp [lookupLast] at h
  | cons kv rest ih =>
    show (k, v) ∈ kv :: rest
    rw [show lookupLast (kv :: rest) k =
          (match lookupLast rest k with
           | some w => some w
           | none => if kv.1 == k then some kv.2 else none) from rfl] at h
    cases hr : lookupLast rest k with
    | some w =>
      rw [hr] at h
      cases h
      exact List.mem_cons_of_mem _ (ih hr)
    | none =>
      rw [hr] at h
      by_cases hk : kv.1 == k
      · rw [if_pos hk] at h
        cases h
        have : kv.1 = k := by simpa using hk
        have : kv = (k, kv.2) := by
          cases kv
          simpa using this
        rw [← this]
        exact List.mem_cons_self _ _
      · rw [if_neg hk] at h
        cases h

theorem lookupLast_none_of_forall {α : Type} {l : List (String × α)} {k : String}
    (h : ∀ kv ∈ l, kv.1 ≠ k) : lookupLast l k = none := by
  induction l with
  | nil => rfl
  | cons kv rest ih =>
    show (match lookupLast rest k with
          | some v => some v
          | none => if kv.1 == k then some kv.2 else none) = none
    rw [ih (fun kv hkv => h kv (List.mem_cons_of_mem _ hkv))]
    rw [if_neg]
    simp only [beq_iff_eq]
    exact h kv (List.mem_cons_self _ _)

theorem append_ne_empty {s : String} (t : String) (hs : s ≠ "") : s ++ t ≠ "" := by
  intro h
  apply hs
  have hd := congrArg String.data h
  rw [String.data_append] at hd
  exact String.ext (List.append_eq_nil.mp hd).1

theorem checkRequiredLoop_some {body : PyValue} {fs : List String} {resp : Response}
    (h : checkRequiredLoop body fs = .ok (some resp)) :
    ∃ rid f, f ∈ fs ∧ resp = missingFieldResp rid f := by
  induction fs with
  | nil => simp [checkRequiredLoop] at h
  | cons f rest ih =>
    rw [checkRequiredLoop] at h
    split at h
    · cases h
    · obtain ⟨rid, g, hg, hresp⟩ := ih h
      exact ⟨rid, g, List.mem_cons_of_mem _ hg, hresp⟩
    · split at h
      · cases h
      · next rid heq =>
        cases h
        exact ⟨rid, f, List.mem_cons_self _ _, rfl⟩

theorem checkRequiredLoop_obj_rid {fields : List (String × PyValue)} {rid : PyValue}
    {fs : List String} {resp : Response}
    (hrid : lookupLast fields "requestId" = some rid)
    (h : checkRequiredLoop (.obj fields) fs = .ok (some resp)) :
    resp.requestId = rid := by
  induction fs with
  | nil => simp [checkRequiredLoop] at h
  | cons f rest ih =>
    rw [checkRequiredLoop] at h
    split at h
    · cases h
    · exact ih h
    · split at h
      · cases h
      · next rid' heq =>
        cases h
        have hr : rid = rid' := by simpa [pyGet, hrid] using heq
        rw [← hr]
        rfl

theorem checkCall_some {rid cd : PyValue} {resp : Response}
    (h : checkCall rid cd = .ok (some resp)) : resp = invalidCallResp rid := by
  rw [checkCall] at h
  split at h
  · cases h
  · cases h; rfl
  · split at h
    · cases h
    · cases h; rfl
    · cases h

theorem registryResolve_some {reg : Registry} {mn : PyValue} {hd : Handler}
    (h : registryResolve reg mn = .ok (some hd)) :
    ∃ s, mn = .str s ∧ lookupLast reg s = some hd := by
  cases mn <;> simp [registryResolve] at h
  next s => exact ⟨s, rfl, h⟩

theorem dispatch_shape {reg : Registry} {rid mn p t : PyValue} {resp : Response} {b : Bool}
    (h : dispatch reg rid mn p t = .ok (resp, b)) :
    resp = unsupportedModelResp rid mn ∨
    (∃ r rt, resp = successResp rid r rt) ∨
    (∃ s processor e, mn = .str s ∧ lookupLast reg s = some processor ∧
      processor mn p t = .raise e ∧
      ((e.cls = ExnClass.processorGptO3ApiError ∧ resp = apiErrorResp rid e) ∨
       (e.cls ≠ ExnClass.processorGptO3ApiError ∧ resp = processingErrorResp rid e))) := by
  rw [dispatch] at h
  split at h
  · cases h
  · cases h
    exact Or.inl rfl
  · next processor heq =>
    obtain ⟨s, hmn, hlook⟩ := registryResolve_some heq
    split at h
    · cases h
      exact Or.inr (Or.inl ⟨_, _, rfl⟩)
    · next e hraise =>
      split at h
      · cases h
        next hcls =>
          exact Or.inr (Or.inr ⟨s, processor, e, hmn, hlook, hraise, Or.inl ⟨hcls, rfl⟩⟩)
      · cases h
        next hcls =>
          exact Or.inr (Or.inr ⟨s, processor, e, hmn, hlook, hraise, Or.inr ⟨hcls, rfl⟩⟩)

theorem dispatch_requestId {reg : Registry} {rid mn p t : PyValue} {resp : Response} {b : Bool}
    (h : dispatch reg rid mn p t = .ok (resp, b)) : resp.requestId = rid := by
  rcases dispatch_shape h with hr | ⟨r, rt, hr⟩ |
    ⟨s, processor, e, _, _, _, ⟨_, hr⟩ | ⟨_, hr⟩⟩ <;> rw [hr] <;> rfl

theorem handleCore_requestId {reg : Registry} {fields : List (String × PyValue)}
    {rid : PyValue} {resp : Response} {b : Bool}
    (hrid : lookupLast fields "requestId" = some rid)
    (h : handleCore reg (.obj fields) = .ok (resp, b)) :
    resp.requestId = rid := by
  rw [handleCore] at h
  split at h
  · cases h
  · next resp' heq =>
    cases h
    exact checkRequiredLoop_obj_rid hrid heq
  · split at h
    · cases h
    · next rid' heq1 =>
      have hrid' : rid = rid' := by simpa [pySubscript, hrid] using heq1
      subst hrid'
      split at h
      · cases h
      · next mn heq2 =>
        split at h
        · cases h
        · next cd heq3 =>
          split at h
          · cases h
          · next resp' heq4 =>
            cases h
            rw [checkCall_some heq4]
            rfl
          · split at h
            · cases h
            · next p heq5 =>
              split at h
              · cases h
              · next t heq6 =>
                exact dispatch_requestId h

theorem handleCore_ok_shape {reg : Registry} {body : PyValue} {resp : Response} {b : Bool}
    (h : handleCore reg body = .ok (resp, b)) :
    (∃ rid f, resp = missingFieldResp rid f) ∨
    (∃ rid, resp = invalidCallResp rid) ∨
    (∃ rid mn, resp = unsupportedModelResp rid mn) ∨
    (∃ rid r rt, resp = successResp rid r rt) ∨
    (∃ rid s processor e, lookupLast reg s = some processor ∧
       (∃ mn p t, processor mn p t = .raise e) ∧
       e.cls = ExnClass.processorGptO3ApiError ∧ resp = apiErrorResp rid e) ∨
    (∃ rid e, e.cls ≠ ExnClass.processorGptO3ApiError ∧ resp = processingErrorResp rid e) := by
  rw [handleCore] at h
  split at h
  · cases h
  · next resp' heq =>
    cases h
    obtain ⟨rid, f, _, hresp⟩ := checkRequiredLoop_some heq
    exact Or.inl ⟨rid, f, hresp⟩
  · split at h
    · cases h
    · next rid' heq1 =>
      split at h
      · cases h
      · next mn heq2 =>
        split at h
        · cases h
        · next cd heq3 =>
          split at h
          · cases h
          · next resp' heq4 =>
            cases h
            exact Or.inr (Or.inl ⟨rid', checkCall_some heq4⟩)
          · split at h
            · cases h
            · next p heq5 =>
              split at h
              · cases h
              · next t heq6 =>
                rcases dispatch_shape h with h1 | ⟨r, rt, h2⟩ |
                  ⟨s, pr, e, hmn, hl, hraise, ⟨hcls, hresp⟩ | ⟨hcls, hresp⟩⟩
                · exact Or.inr (Or.inr (Or.inl ⟨rid', mn, h1⟩))
                · exact Or.inr (Or.inr (Or.inr (Or.inl ⟨rid', r, rt, h2⟩)))
                · exact Or.inr (Or.inr (Or.inr (Or.inr (Or.inl
                    ⟨rid', s, pr, e, hl, ⟨mn, p, t, hraise⟩, hcls, hresp⟩))))
                · exact Or.inr (Or.inr (Or.inr (Or.inr (Or.inr ⟨rid', e, hcls, hresp⟩))))

theorem checkRequiredLoop_str (s : String) (fs : List String) :
    (∃ e, checkRequiredLoop (.str s) fs = .error e) ∨
    checkRequiredLoop (.str s) fs = .ok none := by
  induction fs with
  | nil => exact Or.inr rfl
  | cons f rest ih =>
    cases hb : isInfixOfB f.data s.data
    · exact Or.inl ⟨⟨.attributeError, pyTypeName (.str s) ++ " object has no attribute get", none⟩,
        by simp [checkRequiredLoop, pyContains, hb, pyGet]⟩
    · rcases ih with ⟨e, he⟩ | he
      · exact Or.inl ⟨e, by simp [checkRequiredLoop, pyContains, hb, he]⟩
      · exact Or.inr (by simp [checkRequiredLoop, pyContains, hb, he])

theorem checkRequiredLoop_arr (xs : List PyValue) (fs : List String) :
    (∃ e, checkRequiredLoop (.arr xs) fs = .error e) ∨
    checkRequiredLoop (.arr xs) fs = .ok none := by
  induction fs with
  | nil => exact Or.inr rfl
  | cons f rest ih =>
    cases hb : xs.any (fun x => pyEqStr x f)
    · exact Or.inl ⟨⟨.attributeError, pyTypeName (.arr xs) ++ " object has no attribute get", none⟩,
        by simp [checkRequiredLoop, pyContains, hb, pyGet]⟩
    · rcases ih with ⟨e, he⟩ | he
      · exact Or.inl ⟨e, by simp [checkRequiredLoop, pyContains, hb, he]⟩
      · exact Or.inr (by simp [checkRequiredLoop, pyContains, hb, he])

theorem handleCore_nonobj (reg : Registry) (v : PyValue)
    (hv : ∀ fields, v ≠ .obj fields) :
    ∃ e, handleCore reg v = .error e := by
  cases v with
  | obj fields => exact absurd rfl (hv fields)
  | null => exact ⟨_, rfl⟩
  | bool b => exact ⟨_, rfl⟩
  | num n => exact ⟨_, rfl⟩
  | str s =>
    rcases checkRequiredLoop_str s requiredFields with ⟨e, he⟩ | he
    · exact ⟨e, by rw [handleCore, he]⟩
    · exact ⟨⟨.typeError, "string indices must be integers", none⟩,
        by rw [handleCore, he]; rfl⟩
  | arr xs =>
    rcases checkRequiredLoop_arr xs requiredFields with ⟨e, he⟩ | he
    · exact ⟨e, by rw [handleCore, he]⟩
    · exact ⟨⟨.typeError, "list indices must be integers or slices, not str", none⟩,
        by rw [handleCore, he]; rfl⟩

/-! ### Claim C1: typed API errors and the 400 pass-through -/

/-- Handler fixture raising the `ApiError` class defined in
`processor_gemini.py`: a typed API error with a message and an error code,
but not an instance of the class `server.py` imports as
`ProcessorApiError`. -/
def geminiRaisingHandler : Handler := fun _ _ _ =>
  .raise ⟨.processorGeminiApiError, "Text generation failed: boom", some "TEXT_GENERATION_ERROR"⟩

def c1Registry : Registry := [("model.system.gemini", geminiRaisingHandler)]

def c1Body : PyValue := .obj [("requestId", .str "r1"), ("model", .str "model.system.gemini"),
  ("call", .obj [("parameters", .arr [.str "hi"]), ("types", .arr [.str "string"])])]

/-- C1 counterexample: a typed API error (message plus error code) raised by
the handler, but defined by `processor_gemini` rather than
`processor_gpt_o3`, produces HTTP 500 with the message wrapped by the
processing-error prefix — not HTTP 400 with the message verbatim as the
claim states for every processor module's typed error class. -/
theorem C1_counterexample :
    handle_request c1Registry (.json c1Body) =
      { status := 500, requestId := .str "r1", data := .str "", datatype := "",
        error := "Processing error: Text generation failed: boom" } ∧
    (handle_request c1Registry (.json c1Body)).status ≠ 400 ∧
    (handle_request c1Registry (.json c1Body)).error ≠ "Text generation failed: boom" := by
  have h : handle_request c1Registry (.json c1Body) =
      { status := 500, requestId := .str "r1", data := .str "", datatype := "",
        error := "Processing error: Text generation failed: boom" } := rfl
  refine ⟨h, ?_, ?_⟩ <;> rw [h] <;> decide

/-- C1 (amended): for every request that passes envelope validation and whose
model resolves in the registry, if the handler raises a typed API error that
is an instance of the `ApiError` class imported from `processor_gpt_o3` (the
class bound as `ProcessorApiError`), then `handle_request` returns HTTP 400
with `error` equal to the exception's message verbatim and empty `data` and
`datatype`.  Typed errors of other processor modules' `ApiError` classes do
not take this path (see the counterexample). -/
theorem C1_amended (reg : Registry) (fields cf : List (String × PyValue))
    (rid p t : PyValue) (s msg : String) (code : Option String) (h : Handler)
    (hrid : lookupLast fields "requestId" = some rid)
    (hm : lookupLast fields "model" = some (.str s))
    (hc : lookupLast fields "call" = some (.obj cf))
    (hp : lookupLast cf "parameters" = some p)
    (ht : lookupLast cf "types" = some t)
    (hreg : lookupLast reg s = some h)
    (hexec : h (.str s) p t =
      .raise { cls := .processorGptO3ApiError, message := msg, errorCode := code }) :
    handle_request reg (.json (.obj fields)) =
      { status := 400, requestId := rid, data := .str "", datatype := "", error := msg } := by
  have a1 : fields.any (fun kv => kv.1 == "requestId") = true := any_of_lookupLast hrid
  have a2 : fields.any (fun kv => kv.1 == "model") = true := any_of_lookupLast hm
  have a3 : fields.any (fun kv => kv.1 == "call") = true := any_of_lookupLast hc
  have a4 : cf.any (fun kv => kv.1 == "parameters") = true := any_of_lookupLast hp
  have a5 : cf.any (fun kv => kv.1 == "types") = true := any_of_lookupLast ht
  simp only [handle_request, handleCore, requiredFields, checkRequiredLoop, pyContains,
    a1, a2, a3, pySubscript, hrid, hm, hc, checkCall, a4, a5, hp, ht, dispatch,
    registryResolve, hreg, hexec, apiErrorResp]
  simp

def gptRaisingHandler : Handler := fun _ _ _ =>
  .raise ⟨.processorGptO3ApiError, "bad prompt", some "INVALID_PARAMETERS"⟩

def c1wRegistry : Registry := [("model.system.openai-gpt-5", gptRaisingHandler)]

def c1wFields : List (String × PyValue) :=
  [("requestId", .str "w1"), ("model", .str "model.system.openai-gpt-5"),
   ("call", .obj [("parameters", .arr [.str "hi"]), ("types", .arr [.str "string"])])]

/-- C1 witness: a `processor_gpt_o3`-class `ApiError` with message
`"bad prompt"` yields HTTP 400 with the message verbatim. -/
theorem C1_witness :
    handle_request c1wRegistry (.json (.obj c1wFields)) =
      { status := 400, requestId := .str "w1", data := .str "", datatype := "",
        error := "bad prompt" } :=
  C1_amended c1wRegistry c1wFields
    [("parameters", .arr [.str "hi"]), ("types", .arr [.str "string"])]
    (.str "w1") (.arr [.str "hi"]) (.arr [.str "string"])
    "model.system.openai-gpt-5" "bad prompt" (some "INVALID_PARAMETERS")
    gptRaisingHandler rfl rfl rfl rfl rfl rfl rfl

/-! ### Claim C2: success pass-through -/

/-- C2: for every request parsing as a JSON object containing `requestId`, a
registered `model`, and a `call` with `parameters` and `types`, if the
resolved handler's `execute_call` returns `(result, resultType)` without
raising, `handle_request` returns HTTP 200 with the envelope
`{requestId, data: result, datatype: resultType, error: ""}` — result and
resultType passed through unchanged, with no default substituted. -/
theorem C2_success_passthrough (reg : Registry) (fields cf : List (String × PyValue))
    (rid p t r : PyValue) (s rt : String) (h : Handler)
    (hrid : lookupLast fields "requestId" = some rid)
    (hm : lookupLast fields "model" = some (.str s))
    (hc : lookupLast fields "call" = some (.obj cf))
    (hp : lookupLast cf "parameters" = some p)
    (ht : lookupLast cf "types" = some t)
    (hreg : lookupLast reg s = some h)
    (hexec : h (.str s) p t = .ok r rt) :
    handle_request reg (.json (.obj fields)) = successResp rid r rt := by
  have a1 : fields.any (fun kv => kv.1 == "requestId") = true := any_of_lookupLast hrid
  have a2 : fields.any (fun kv => kv.1 == "model") = true := any_of_lookupLast hm
  have a3 : fields.any (fun kv => kv.1 == "call") = true := any_of_lookupLast hc
  have a4 : cf.any (fun kv => kv.1 == "parameters") = true := any_of_lookupLast hp
  have a5 : cf.any (fun kv => kv.1 == "types") = true := any_of_lookupLast ht
  simp only [handle_request, handleCore, requiredFields, checkRequiredLoop, pyContains,
    a1, a2, a3, pySubscript, hrid, hm, hc, checkCall, a4, a5, hp, ht, dispatch,
    registryResolve, hreg, hexec]

/-- Handler fixture returning an empty (falsy) result, exercising the
no-default-substitution part of C2. -/
def emptyResultHandler : Handler := fun _ _ _ => .ok (.str "") "string"

def c2Registry : Registry := [("m.echo", emptyResultHandler)]

def c2wFields : List (String × PyValue) :=
  [("requestId", .str "t1"), ("model", .str "m.echo"),
   ("call", .obj [("parameters", .arr [.str "hi"]), ("types", .arr [.str "string"])])]

/-- C2 witness: a handler returning the falsy result `""` is passed through
unchanged in a 200 envelope with empty `error`. -/
theorem C2_witness :
    handle_request c2Registry (.json (.obj c2wFields)) =
      successResp (.str "t1") (.str "") "string" :=
  C2_success_passthrough c2Registry c2wFields
    [("parameters", .arr [.str "hi"]), ("types", .arr [.str "string"])]
    (.str "t1") (.arr [.str "hi"]) (.arr [.str "string"]) (.str "")
    "m.echo" "string" emptyResultHandler rfl rfl rfl rfl rfl rfl rfl

/-! ### Claim C3: requestId echoing -/

def c3Body : PyValue := .obj [("requestId", .str "t1"), ("model", .str "m"), ("call", .num 5)]

/-- C3 counterexample: a body that parses as a JSON object from which
`requestId` (`"t1"`) is successfully recovered, but whose `call` value is a
number: the membership test on `call` raises, the outermost generic handler
answers, and the response `requestId` is `"unknown"`, not `"t1"` — so the
requestId is not echoed in every error response. -/
theorem C3_counterexample :
    (handle_request [] (.json c3Body)).requestId = .str "unknown" ∧
    (handle_request [] (.json c3Body)).requestId ≠ .str "t1" := by
  refine ⟨rfl, fun h => ?_⟩
  rw [show (handle_request [] (.json c3Body)).requestId = PyValue.str "unknown" from rfl] at h
  injection h with h2
  exact absurd h2 (by decide)

/-- C3 (amended): for every request body parsing as a JSON object with a
recoverable `requestId`, every response produced inside the validation,
routing and handler-outcome paths (missing-field, invalid-call,
unsupported-model, handler-signaled error, handler processing error,
success) echoes the request's `requestId` verbatim; only responses of the
outermost generic exception handler (HTTP 500 `Server error` responses) use
`"unknown"` instead. -/
theorem C3_amended (reg : Registry) (fields : List (String × PyValue))
    (rid : PyValue) (resp : Response) (b : Bool)
    (hrid : lookupLast fields "requestId" = some rid)
    (hok : handleCore reg (.obj fields) = .ok (resp, b)) :
    (handle_request reg (.json (.obj fields))).requestId = rid := by
  have hr : handle_request reg (.json (.obj fields)) = resp := by
    simp [handle_request, hok]
  rw [hr]
  exact handleCore_requestId hrid hok

def c3wFields : List (String × PyValue) :=
  [("requestId", .str "t1"), ("model", .str "m"), ("call", .obj [])]

/-- C3 witness: an invalid-call error response (the `call` object lacks
`parameters`) echoes the request's `requestId`. -/
theorem C3_witness :
    (handle_request [] (.json (.obj c3wFields))).requestId = .str "t1" :=
  C3_amended [] c3wFields (.str "t1") (invalidCallResp (.str "t1")) false rfl rfl

/-! ### Claim C4: unsignaled handler failures -/

/-- C4: for every request reaching handler invocation, if `execute_call`
raises an exception that is not an instance of the imported
`ProcessorApiError` class, `handle_request` returns HTTP 500 with the
message wrapped by the `Processing error: ` prefix and empty `data` and
`datatype`; the response carries the parsed `requestId`, showing the failure
was caught by the dispatcher's inner handler and did not propagate. -/
theorem C4_unsignaled_500 (reg : Registry) (fields cf : List (String × PyValue))
    (rid p t : PyValue) (s : String) (h : Handler) (e : PyExn)
    (hrid : lookupLast fields "requestId" = some rid)
    (hm : lookupLast fields "model" = some (.str s))
    (hc : lookupLast fields "call" = some (.obj cf))
    (hp : lookupLast cf "parameters" = some p)
    (ht : lookupLast cf "types" = some t)
    (hreg : lookupLast reg s = some h)
    (hexec : h (.str s) p t = .raise e)
    (hcls : e.cls ≠ ExnClass.processorGptO3ApiError) :
    handle_request reg (.json (.obj fields)) = processingErrorResp rid e := by
  have a1 : fields.any (fun kv => kv.1 == "requestId") = true := any_of_lookupLast hrid
  have a2 : fields.any (fun kv => kv.1 == "model") = true := any_of_lookupLast hm
  have a3 : fields.any (fun kv => kv.1 == "call") = true := any_of_lookupLast hc
  have a4 : cf.any (fun kv => kv.1 == "parameters") = true := any_of_lookupLast hp
  have a5 : cf.any (fun kv => kv.1 == "types") = true := any_of_lookupLast ht
  simp only [handle_request, handleCore, requiredFields, checkRequiredLoop, pyContains,
    a1, a2, a3, pySubscript, hrid, hm, hc, checkCall, a4, a5, hp, ht, dispatch,
    registryResolve, hreg, hexec, if_neg hcls]

/-- Handler fixture raising an untyped error (`ZeroDivisionError`). -/
def crashHandler : Handler := fun _ _ _ =>
  .raise ⟨.otherExn "ZeroDivisionError", "division by zero", none⟩

def c4Registry : Registry := [("m.crash", crashHandler)]

def c4wFields : List (String × PyValue) :=
  [("requestId", .str "t4"), ("model", .str "m.crash"),
   ("call", .obj [("parameters", .arr [.str "hi"]), ("types", .arr [.str "string"])])]

/-- C4 witness: an untyped `division by zero` failure yields HTTP 500 with
the wrapped message and the parsed `requestId`. -/
theorem C4_witness :
    handle_request c4Registry (.json (.obj c4wFields)) =
      processingErrorResp (.str "t4") ⟨.otherExn "ZeroDivisionError", "division by zero", none⟩ :=
  C4_unsignaled_500 c4Registry c4wFields
    [("parameters", .arr [.str "hi"]), ("types", .arr [.str "string"])]
    (.str "t4") (.arr [.str "hi"]) (.arr [.str "string"]) "m.crash" crashHandler
    ⟨.otherExn "ZeroDivisionError", "division by zero", none⟩
    rfl rfl rfl rfl rfl rfl rfl (by decide)

/-! ### Claim C5: malformed bodies -/

/-- C5 counterexample: a body that is valid JSON but not an object (the JSON
number `5`) yields HTTP 500 with a `Server error` message — not HTTP 400
with a malformed-body message as the claim states for every body not
parseable as the expected structured format. -/
theorem C5_counterexample :
    (handle_request [] (.json (.num 5))).status = 500 ∧
    (handle_request [] (.json (.num 5))).status ≠ 400 ∧
    (handle_request [] (.json (.num 5))).error =
      "Server error: argument of type int is not iterable" := by
  refine ⟨rfl, ?_, rfl⟩
  rw [show (handle_request [] (.json (.num 5))).status = 500 from rfl]
  decide

/-- C5 (amended): a body that is not valid JSON yields HTTP 400 with the
malformed-body message and `requestId` `"unknown"`, and no handler is
invoked; a body that is valid JSON but not a JSON object also yields
`requestId` `"unknown"` with no handler invoked, but with HTTP 500 and a
`Server error: `-prefixed message (the shape failure raises during
validation and is caught only by the outermost generic handler), not
HTTP 400. -/
theorem C5_amended (reg : Registry) (v : PyValue)
    (hv : ∀ fields, v ≠ .obj fields) :
    handle_request reg .invalidJson = invalidJsonResp ∧
    handlerInvoked reg .invalidJson = false ∧
    (handle_request reg (.json v)).status = 500 ∧
    (handle_request reg (.json v)).requestId = .str "unknown" ∧
    (∃ msg, (handle_request reg (.json v)).error = "Server error: " ++ msg) ∧
    handlerInvoked reg (.json v) = false := by
  obtain ⟨e, he⟩ := handleCore_nonobj reg v hv
  refine ⟨rfl, rfl, ?_, ?_, ⟨e.message, ?_⟩, ?_⟩ <;>
    simp [handle_request, handlerInvoked, he, serverErrorResp]

/-- C5 witness: the JSON boolean body `true` takes the 500 `Server error`
path with `requestId` `"unknown"` and no handler invocation, while a
non-JSON body yields the 400 malformed-body response. -/
theorem C5_witness :
    handle_request [] .invalidJson = invalidJsonResp ∧
    handlerInvoked [] .invalidJson = false ∧
    (handle_request [] (.json (.bool true))).status = 500 ∧
    (handle_request [] (.json (.bool true))).requestId = .str "unknown" ∧
    (∃ msg, (handle_request [] (.json (.bool true))).error = "Server error: " ++ msg) ∧
    handlerInvoked [] (.json (.bool true)) = false :=
  C5_amended [] (.bool true) (fun _ h => PyValue.noConfusion h)

/-! ### Claim C6: missing required fields -/

/-- C6: for every JSON-object body missing at least one of the top-level
keys `requestId`, `model`, `call`, the response is HTTP 400 naming the
first missing field in the fixed check order `requestId`, `model`, `call`;
no handler is invoked; and the response `requestId` is the body's
`requestId` when present, else `"unknown"`. -/
theorem C6_missing_field (reg : Registry) (fields : List (String × PyValue))
    (hmiss : lookupLast fields "requestId" = none ∨ lookupLast fields "model" = none ∨
             lookupLast fields "call" = none) :
    handle_request reg (.json (.obj fields)) =
      missingFieldResp ((lookupLast fields "requestId").getD (.str "unknown"))
        (if (lookupLast fields "requestId").isNone then "requestId"
         else if (lookupLast fields "model").isNone then "model" else "call") ∧
    handlerInvoked reg (.json (.obj fields)) = false := by
  cases h1 : lookupLast fields "requestId" with
  | none =>
    have a1 : fields.any (fun kv => kv.1 == "requestId") = false :=
      any_false_of_lookupLast_none h1
    constructor <;>
      simp [handle_request, handlerInvoked, handleCore, requiredFields, checkRequiredLoop,
        pyContains, a1, pyGet, h1]
  | some rid =>
    have a1 : fields.any (fun kv => kv.1 == "requestId") = true := any_of_lookupLast h1
    cases h2 : lookupLast fields "model" with
    | none =>
      have a2 : fields.any (fun kv => kv.1 == "model") = false :=
        any_false_of_lookupLast_none h2
      constructor <;>
        simp [handle_request, handlerInvoked, handleCore, requiredFields, checkRequiredLoop,
          pyContains, a1, a2, pyGet, h1, h2]
    | some m =>
      have a2 : fields.any (fun kv => kv.1 == "model") = true := any_of_lookupLast h2
      cases h3 : lookupLast fields "call" with
      | none =>
        have a3 : fields.any (fun kv => kv.1 == "call") = false :=
          any_false_of_lookupLast_none h3
        constructor <;>
          simp [handle_request, handlerInvoked, handleCore, requiredFields, checkRequiredLoop,
            pyContains, a1, a2, a3, pyGet, h1, h2, h3]
      | some c =>
        exfalso
        rcases hmiss with h | h | h
        · rw [h1] at h; cases h
        · rw [h2] at h; cases h
        · rw [h3] at h; cases h

/-- C6 witness: the body `{"foo": "bar"}` misses all required fields; the
response is 400 naming `requestId` (the first missing field) with
`requestId` `"unknown"`, and no handler runs. -/
theorem C6_witness :
    handle_request [] (.json (.obj [("foo", .str "bar")])) =
      missingFieldResp (.str "unknown") "requestId" ∧
    handlerInvoked [] (.json (.obj [("foo", .str "bar")])) = false :=
  C6_missing_field [] [("foo", .str "bar")] (Or.inl rfl)

/-! ### Claim C7: unsupported model -/

/-- C7: for every validated envelope whose model string has no exactly-equal
key in the registry (so in particular no prefix or fuzzy matching), the
response is HTTP 400 with an error mentioning the model id, empty `data`
and `datatype`, and no handler is invoked. -/
theorem C7_unsupported_model (reg : Registry) (fields cf : List (String × PyValue))
    (rid : PyValue) (s : String)
    (hrid : lookupLast fields "requestId" = some rid)
    (hm : lookupLast fields "model" = some (.str s))
    (hc : lookupLast fields "call" = some (.obj cf))
    (hp : (lookupLast cf "parameters").isSome = true)
    (ht : (lookupLast cf "types").isSome = true)
    (hreg : ∀ kv ∈ reg, kv.1 ≠ s) :
    handle_request reg (.json (.obj fields)) =
      { status := 400, requestId := rid, data := .str "", datatype := "",
        error := "Model " ++ s ++ " not supported" } ∧
    handlerInvoked reg (.json (.obj fields)) = false := by
  obtain ⟨p, hp'⟩ := Option.isSome_iff_exists.mp hp
  obtain ⟨t, ht'⟩ := Option.isSome_iff_exists.mp ht
  have a1 : fields.any (fun kv => kv.1 == "requestId") = true := any_of_lookupLast hrid
  have a2 : fields.any (fun kv => kv.1 == "model") = true := any_of_lookupLast hm
  have a3 : fields.any (fun kv => kv.1 == "call") = true := any_of_lookupLast hc
  have a4 : cf.any (fun kv => kv.1 == "parameters") = true := any_of_lookupLast hp'
  have a5 : cf.any (fun kv => kv.1 == "types") = true := any_of_lookupLast ht'
  have hnone : lookupLast reg s = none := lookupLast_none_of_forall hreg
  constructor
  · simp only [handle_request, handleCore, requiredFields, checkRequiredLoop, pyContains,
      a1, a2, a3, pySubscript, hrid, hm, hc, checkCall, a4, a5, hp', ht', dispatch,
      registryResolve, hnone, unsupportedModelResp, pyStrScalar]
  · simp only [handlerInvoked, handleCore, requiredFields, checkRequiredLoop, pyContains,
      a1, a2, a3, pySubscript, hrid, hm, hc, checkCall, a4, a5, hp', ht', dispatch,
      registryResolve, hnone]

def okHandler : Handler := fun _ _ _ => .ok (.str "ok") "string"

def c7Registry : Registry := [("m.mis", okHandler)]

def c7wFields : List (String × PyValue) :=
  [("requestId", .str "w7"), ("model", .str "m.missing"),
   ("call", .obj [("parameters", .arr []), ("types", .arr [])])]

/-- C7 witness: the registry holds only the strict prefix `m.mis`, so the
model `m.missing` is unsupported — exact match only, no prefix matching. -/
theorem C7_witness :
    handle_request c7Registry (.json (.obj c7wFields)) =
      { status := 400, requestId := .str "w7", data := .str "", datatype := "",
        error := "Model m.missing not supported" } ∧
    handlerInvoked c7Registry (.json (.obj c7wFields)) = false :=
  C7_unsupported_model c7Registry c7wFields
    [("parameters", .arr []), ("types", .arr [])]
    (.str "w7") "m.missing" rfl rfl rfl rfl rfl (by decide)

/-! ### Claim C8: envelope well-formedness and the error discriminator -/

/-- Handler fixture raising a `ProcessorApiError` whose message is empty. -/
def emptyMessageHandler : Handler := fun _ _ _ =>
  .raise ⟨.processorGptO3ApiError, "", some "NO_RESPONSE"⟩

def c8Registry : Registry := [("m.empty", emptyMessageHandler)]

def c8Body : PyValue := .obj [("requestId", .str "e1"), ("model", .str "m.empty"),
  ("call", .obj [("parameters", .arr []), ("types", .arr [])])]

/-- C8 counterexample: a handler raising a typed `ProcessorApiError` whose
message is the empty string produces a failure response (HTTP 400, not 200)
whose `error` field is nonetheless empty — so an empty `error` does not
imply success for every handler outcome. -/
theorem C8_counterexample :
    (handle_request c8Registry (.json c8Body)).error = "" ∧
    (handle_request c8Registry (.json c8Body)).status ≠ 200 := by
  refine ⟨rfl, ?_⟩
  rw [show (handle_request c8Registry (.json c8Body)).status = 400 from rfl]
  decide

/-- C8 (amended): every response is a well-formed four-field envelope whose
status is 200, 400 or 500; and provided every typed `ProcessorApiError`
raised by a registered handler carries a non-empty message, the `error`
field is empty exactly when the outcome is success with HTTP 200 (without
that proviso, a typed error with an empty message gives HTTP 400 with empty
`error`; see the counterexample). -/
theorem C8_amended (reg : Registry)
    (hmsg : ∀ kv ∈ reg, ∀ mn p t e, kv.2 mn p t = HandlerOutcome.raise e →
       e.cls = ExnClass.processorGptO3ApiError → e.message ≠ "")
    (rb : RequestBody) :
    ((handle_request reg rb).error = "" ↔ (handle_request reg rb).status = 200) ∧
    ((handle_request reg rb).status = 200 ∨ (handle_request reg rb).status = 400 ∨
     (handle_request reg rb).status = 500) := by
  cases rb with
  | invalidJson =>
    refine ⟨⟨fun h => ?_, fun h => ?_⟩, Or.inr (Or.inl rfl)⟩ <;>
      simp [handle_request, invalidJsonResp] at h
  | json body =>
    cases hc : handleCore reg body with
    | error e =>
      have hr : handle_request reg (.json body) = serverErrorResp e := by
        simp [handle_request, hc]
      rw [hr]
      refine ⟨⟨fun h => absurd h (append_ne_empty _ (by decide)), fun h => ?_⟩,
        Or.inr (Or.inr rfl)⟩
      simp [serverErrorResp] at h
    | ok pr =>
      obtain ⟨resp, b⟩ := pr
      have hr : handle_request reg (.json body) = resp := by simp [handle_request, hc]
      rw [hr]
      rcases handleCore_ok_shape hc with ⟨rid, f, h1⟩ | ⟨rid, h1⟩ | ⟨rid, mn, h1⟩ |
        ⟨rid, r, rt, h1⟩ | ⟨rid, s, pr', e, hl, ⟨mn, p, t, hraise⟩, hcls, h1⟩ |
        ⟨rid, e, hcls, h1⟩ <;> subst h1
      · refine ⟨⟨fun h => absurd h (append_ne_empty _ (by decide)), fun h => ?_⟩,
          Or.inr (Or.inl rfl)⟩
        simp [missingFieldResp] at h
      · refine ⟨⟨fun h => ?_, fun h => ?_⟩, Or.inr (Or.inl rfl)⟩ <;>
          simp [invalidCallResp] at h
      · refine ⟨⟨fun h => absurd h (append_ne_empty _ (append_ne_empty _ (by decide))),
          fun h => ?_⟩, Or.inr (Or.inl rfl)⟩
        simp [unsupportedModelResp] at h
      · exact ⟨⟨fun _ => rfl, fun _ => rfl⟩, Or.inl rfl⟩
      · have hne : e.message ≠ "" := hmsg (s, pr') (lookupLast_mem hl) mn p t e hraise hcls
        refine ⟨⟨fun h => absurd h hne, fun h => ?_⟩, Or.inr (Or.inl rfl)⟩
        simp [apiErrorResp] at h
      · refine ⟨⟨fun h => absurd h (append_ne_empty _ (by decide)), fun h => ?_⟩,
          Or.inr (Or.inr rfl)⟩
        simp [processingErrorResp] at h

/-- C8 witness: for the empty registry (whose handlers vacuously satisfy the
non-empty-message proviso) and a non-JSON body, the discriminator and status
classification hold. -/
theorem C8_witness :
    ((handle_request [] .invalidJson).error = "" ↔
      (handle_request [] .invalidJson).status = 200) ∧
    ((handle_request [] .invalidJson).status = 200 ∨
     (handle_request [] .invalidJson).status = 400 ∨
     (handle_request [] .invalidJson).status = 500) :=
  C8_amended [] (fun kv hkv => absurd hkv (List.not_mem_nil kv)) .invalidJson

/-! ### Claim C10: non-container call values -/

/-- C10: for every JSON-object body containing `requestId`, `model` and
`call` where the `call` value is not a container (a number, boolean, or
null), `handle_request` returns HTTP 500 with `requestId` `"unknown"` and a
`Server error: `-prefixed message — the key-membership test on the `call`
value raises `TypeError`, caught only by the outermost generic handler —
rather than an HTTP 400 invalid-call response echoing the parsed
`requestId`. -/
theorem C10_noncontainer_call (reg : Registry) (fields : List (String × PyValue))
    (rid m c : PyValue)
    (hrid : lookupLast fields "requestId" = some rid)
    (hm : lookupLast fields "model" = some m)
    (hc : lookupLast fields "call" = some c)
    (hscalar : c = .null ∨ (∃ b, c = .bool b) ∨ (∃ n, c = .num n)) :
    handle_request reg (.json (.obj fields)) =
      serverErrorResp ⟨.typeError,
        "argument of type " ++ pyTypeName c ++ " is not iterable", none⟩ ∧
    handlerInvoked reg (.json (.obj fields)) = false := by
  have a1 : fields.any (fun kv => kv.1 == "requestId") = true := any_of_lookupLast hrid
  have a2 : fields.any (fun kv => kv.1 == "model") = true := any_of_lookupLast hm
  have a3 : fields.any (fun kv => kv.1 == "call") = true := any_of_lookupLast hc
  rcases hscalar with hn | ⟨b, hb⟩ | ⟨n, hnum⟩ <;> subst_vars <;>
    exact ⟨by simp only [handle_request, handleCore, requiredFields, checkRequiredLoop,
        pyContains, a1, a2, a3, pySubscript, hrid, hm, hc, checkCall],
      by simp only [handlerInvoked, handleCore, requiredFields, checkRequiredLoop,
        pyContains, a1, a2, a3, pySubscript, hrid, hm, hc, checkCall]⟩

def c10Fields : List (String × PyValue) :=
  [("requestId", .str "t1"), ("model", .str "m"), ("call", .num 5)]

/-- C10 witness: `call` equal to the number `5` yields the 500 `Server
error` response with `requestId` `"unknown"` and no handler invocation. -/
theorem C10_witness :
    handle_request [] (.json (.obj c10Fields)) =
      serverErrorResp ⟨.typeError, "argument of type int is not iterable", none⟩ ∧
    handlerInvoked [] (.json (.obj c10Fields)) = false :=
  C10_noncontainer_call [] c10Fields (.str "t1") (.str "m") (.num 5) rfl rfl rfl
    (Or.inr (Or.inr ⟨5, rfl⟩))

end DTNAI
